import Mathlib

/-!
Shallow embedding of the ald telemetry pipeline:
src/services/database_log_service.py (the MQTT receiver callbacks, the
message classes and the DatabaseWorker) and src/database_interface.py
(the DatabaseInterface sink).  Wall-clock instants used by the worker for
its batching arithmetic are rationals (seconds); datetime objects
elsewhere are carried as their ISO-8601 text.
-/

/-- Decoded JSON values, the result of json.loads on a payload that the
external json library accepts. -/
inductive Json where
  | null : Json
  | bool : Bool → Json
  | num : ℚ → Json
  | str : String → Json
  | arr : List Json → Json
  | obj : List (String × Json) → Json

/-- Model of Python str() applied to a decoded JSON value, used when the
source interpolates values into SQL text with str.format.  The exact
rendering of numbers and containers is immaterial to every property
proved below. -/
def Json.pyStr : Json → String
  | .null => "None"
  | .bool true => "True"
  | .bool false => "False"
  | .num q => toString q.num ++ (if q.den = 1 then "" else "/" ++ toString q.den)
  | .str s => s
  | .arr _ => "[list]"
  | .obj _ => "[dict]"

/-- Exceptions that a receiver callback body can raise while decoding. -/
inductive PyError where
  | jsonDecodeError : String → PyError
  | keyError : String → PyError
  | typeError : PyError
  | attributeError : PyError
deriving DecidableEq

/-- Raw MQTT payload: either text that json.loads rejects, or one that the
external json library decodes to the given JSON value. -/
inductive Payload where
  | malformed : String → Payload
  | wellFormed : Json → Payload

/-- Behaviour of json.loads(message.payload.decode()): raises on malformed
input, otherwise yields the decoded value. -/
def json_loads : Payload → Except PyError Json
  | .malformed s => .error (.jsonDecodeError s)
  | .wellFormed j => .ok j

/-- Python subscript values[key] on a decoded JSON value: raises KeyError
when the key is absent and TypeError when the value is not an object. -/
def getItem (j : Json) (k : String) : Except PyError Json :=
  match j with
  | .obj fields =>
    match fields.lookup k with
    | some v => Except.ok v
    | none => Except.error (.keyError k)
  | _ => Except.error .typeError

/-- Parsed wall-clock points (Python datetime objects) are represented by
their ISO-8601 text. -/
abbrev Datetime := String

/-- Under the text representation of datetimes, datetime.isoformat() is the
identity. -/
def isoformat (d : Datetime) : String := d

/-- Model of the external dateutil.parser.parse applied to a decoded JSON
field, composed with the text representation of datetimes: on string input
it yields the text itself.  Parse failures of the external library are not
modelled; no claim below depends on them. -/
def dateutil_parse (j : Json) : Datetime := j.pyStr

/-- The typed domain events of database_log_service.py.  Fields hold the
decoded JSON values verbatim, exactly as the receiver callbacks store
them into the message objects. -/
inductive Message where
  | sampleTemperature (temperature resistance timestamp : Json)
  | pressure (timestamp pressure : Json)
  | flow (temperature volume_flow mass_flow pressure setpoint timestamp : Json)
  | valve (timestamp : Json) (name : String) (state : Json)
  | temperature (loop_id datetime temperature wsp tsp power : Json)

/-- An incoming MQTT message: the topic it was delivered on and its raw
payload. -/
structure MQTTMessage where
  topic : String
  payload : Payload

/-- Result of running one single-put callback body: the messages put on the
queue, and the exception that escaped the callback, if any.  The callback
bodies install no exception handler, so a decode error is the error of
the whole callback. -/
def put_result : Except PyError Message → List Message × Option PyError
  | .ok msg => ([msg], none)
  | .error e => ([], some e)

/-- Decode chain of MQTTReceiver._on_flow_state: json.loads, then the six
FLOW_MESSAGE_KEYS subscripts in source order, then FlowMessage(...). -/
def flow_decode (p : Payload) : Except PyError Message := do
  let values ← json_loads p
  let temp ← getItem values ("temperature")
  let volflow ← getItem values ("volflow")
  let massflow ← getItem values ("massflow")
  let pressure ← getItem values ("pressure")
  let setpoint ← getItem values ("setpoint")
  let timestamp ← getItem values ("timestamp")
  pure (Message.flow temp volflow massflow pressure setpoint timestamp)

/-- MQTTReceiver._on_flow_state. -/
def on_flow_state (m : MQTTMessage) : List Message × Option PyError :=
  put_result (flow_decode m.payload)

/-- Decode chain of MQTTReceiver._on_pressure_main. -/
def pressure_decode (p : Payload) : Except PyError Message := do
  let values ← json_loads p
  let timestamp ← getItem values ("timestamp")
  let pressure ← getItem values ("pressure")
  pure (Message.pressure timestamp pressure)

/-- MQTTReceiver._on_pressure_main. -/
def on_pressure_main (m : MQTTMessage) : List Message × Option PyError :=
  put_result (pressure_decode m.payload)

/-- Decode chain of MQTTReceiver._on_sample_temperature. -/
def sample_decode (p : Payload) : Except PyError Message := do
  let values ← json_loads p
  let temp ← getItem values ("temperature")
  let resistance ← getItem values ("resistance")
  let datetime ← getItem values ("timestamp")
  pure (Message.sampleTemperature temp resistance datetime)

/-- MQTTReceiver._on_sample_temperature. -/
def on_sample_temperature (m : MQTTMessage) : List Message × Option PyError :=
  put_result (sample_decode m.payload)

/-- Decode chain of MQTTReceiver._on_temperature: the six
TEMPERATURE_MESSAGE_KEYS subscripts in source order.  Only the payload is
consulted; the topic that delivered the message is never read. -/
def temperature_decode (p : Payload) : Except PyError Message := do
  let values ← json_loads p
  let lo ← getItem values ("loop")
  let datetime ← getItem values ("datetime")
  let temperature ← getItem values ("temperature")
  let wsp ← getItem values ("wsp")
  let tsp ← getItem values ("tsp")
  let power ← getItem values ("power")
  pure (Message.temperature lo datetime temperature wsp tsp power)

/-- MQTTReceiver._on_temperature. -/
def on_temperature (m : MQTTMessage) : List Message × Option PyError :=
  put_result (temperature_decode m.payload)

/-- Body of one iteration of the _on_valves loop: the two subscripts on the
sub-object in source order, then ValveMessage(datetime, valve_name, state). -/
def valveEntry (valve_name : String) (valve_data : Json) : Except PyError Message := do
  let state ← getItem valve_data ("state")
  let timestamp ← getItem valve_data ("timestamp")
  pure (Message.valve timestamp valve_name state)

/-- The for valve_name, valve_data in values.items() loop of
MQTTReceiver._on_valves: entries before a failing one have already been
put on the queue when the exception escapes. -/
def on_valves_loop : List (String × Json) → List Message × Option PyError
  | [] => ([], none)
  | (valve_name, valve_data) :: rest =>
    match valveEntry valve_name valve_data with
    | .ok msg =>
      let r := on_valves_loop rest
      (msg :: r.1, r.2)
    | .error e => ([], some e)

/-- MQTTReceiver._on_valves.  Calling .items() on a non-dict raises
AttributeError. -/
def on_valves (m : MQTTMessage) : List Message × Option PyError :=
  match json_loads m.payload with
  | .error e => ([], some e)
  | .ok (.obj fields) => on_valves_loop fields
  | .ok _ => ([], some .attributeError)

/-- MQTTReceiver.TEMPERATURE_TOPICS. -/
def TEMPERATURE_TOPICS : List String :=
  ["leftlinevacuum", "centerlinevacuum", "copperheater", "rightlinevacuum",
   "leftprecursor", "leftlineair", "rightlineair", "rightprecursor"]

/-- Names of the per-topic callbacks that _on_connect registers. -/
inductive Handler where
  | onSampleTemperature : Handler
  | onFlowState : Handler
  | onPressureMain : Handler
  | onValves : Handler
  | onTemperature : Handler
deriving DecidableEq

/-- The topic-to-callback registrations performed by
MQTTReceiver._on_connect, in source order: four fixed topics, then one
entry per TEMPERATURE_TOPICS suffix, all of the latter bound to the same
_on_temperature callback. -/
def on_connect_registrations : List (String × Handler) :=
  [("ald/sample/temperature", Handler.onSampleTemperature),
   ("ald/flow/state", Handler.onFlowState),
   ("ald/pressure/main", Handler.onPressureMain),
   ("ald/io/state", Handler.onValves)]
  ++ TEMPERATURE_TOPICS.map (fun topic => ("ald/temperature/" ++ topic, Handler.onTemperature))

/-- State of the DatabaseInterface sink: the statements executed on the
connection cursor, the _new_to_commit flag, and how many times the
underlying connection has flushed (connection.commit() calls). -/
structure DBState where
  executed : List String
  new_to_commit : Bool
  flushed : ℕ
deriving DecidableEq

/-- State of a freshly constructed DatabaseInterface: nothing executed and
_new_to_commit = False. -/
def DBState.init : DBState := ⟨[], false, 0⟩

/-- Python evaluates a default-argument expression once, when the def it
belongs to is executed; the DatabaseInterface class body runs once at
import, so each insert function samples datetime.now() once at that
moment and keeps the resulting instant as its default for the life of
the process.  This structure records those definition-time samples. -/
structure ClassDefaults where
  insert_flow_datetime : Datetime
  insert_pressure_datetime : Datetime
  insert_sample_datetime : Datetime
  insert_temperature_datetime : Datetime
  insert_valves_datetime : Datetime
  process_log_start_time : Datetime
  process_log_end_time : Datetime

namespace DatabaseInterface

/-- INSERT_FLOW_STR with its six format fields substituted, exactly as
str.format does: the datetime between double quotes, the numeric fields
bare. -/
def INSERT_FLOW_STR (dt vf mf pr sp tp : String) : String :=
  "INSERT INTO flow (datetime, volume_flow, mass_flow, pressure, set_point, temperature) VALUES (\"" ++ dt ++ "\", " ++ vf ++ ", " ++ mf ++ ", " ++ pr ++ ", " ++ sp ++ ", " ++ tp ++ ");"

/-- INSERT_PRESSURE_STR with its format fields substituted. -/
def INSERT_PRESSURE_STR (dt pr : String) : String :=
  "INSERT INTO pressure (datetime, pressure) VALUES (\"" ++ dt ++ "\", " ++ pr ++ ");"

/-- INSERT_SAMPLE_STR with its format fields substituted. -/
def INSERT_SAMPLE_STR (dt res temp : String) : String :=
  "INSERT INTO sample (datetime, resistance, temperature) VALUES (\"" ++ dt ++ "\", " ++ res ++ ", " ++ temp ++ ");"

/-- INSERT_TEMPERATURE_STR with its format fields substituted. -/
def INSERT_TEMPERATURE_STR (dt lid temp wsp tsp op : String) : String :=
  "INSERT INTO temperature (datetime, loop_id, temperature, working_set_point, target_set_point, output_power) VALUES (\"" ++ dt ++ "\", " ++ lid ++ ", " ++ temp ++ ", " ++ wsp ++ ", " ++ tsp ++ ", " ++ op ++ ");"

/-- INSERT_VALVES_STR with its format fields substituted: datetime and name
between double quotes, the state bare. -/
def INSERT_VALVES_STR (dt name st : String) : String :=
  "INSERT INTO valves (datetime, name, state) VALUES (\"" ++ dt ++ "\", \"" ++ name ++ "\", " ++ st ++ ");"

/-- INSERT_PROCESS_LOG_STR with its format fields substituted. -/
def INSERT_PROCESS_LOG_STR (st en cy ph : String) : String :=
  "INSERT INTO process_log (start_time, end_time, cycle_no, phase) VALUES (\"" ++ st ++ "\", \"" ++ en ++ "\", " ++ cy ++ ", \"" ++ ph ++ "\");"

/-- DatabaseInterface._set: execute the statement on a cursor of the
connection and mark that there is something to commit. -/
def _set (sql_query : String) (s : DBState) : DBState :=
  { s with executed := s.executed ++ [sql_query], new_to_commit := true }

/-- DatabaseInterface.commit: when _new_to_commit is set, clear it and
flush the underlying connection; otherwise do nothing. -/
def commit (s : DBState) : DBState :=
  if s.new_to_commit then
    { s with new_to_commit := false, flushed := s.flushed + 1 }
  else s

/-- DatabaseInterface.insert_flow.  An omitted argument falls back to the
default sampled when the class body ran; non-datetime arguments default
to 0 and are rendered by str.format. -/
def insert_flow (defs : ClassDefaults) (datetime : Option Datetime)
    (volume_flow mass_flow pressure set_point temperature : Option Json)
    (s : DBState) : DBState :=
  let dt := datetime.getD defs.insert_flow_datetime
  _set (INSERT_FLOW_STR (isoformat dt)
    (volume_flow.getD (Json.num 0)).pyStr
    (mass_flow.getD (Json.num 0)).pyStr
    (pressure.getD (Json.num 0)).pyStr
    (set_point.getD (Json.num 0)).pyStr
    (temperature.getD (Json.num 0)).pyStr) s

/-- DatabaseInterface.insert_pressure. -/
def insert_pressure (defs : ClassDefaults) (datetime : Option Datetime)
    (pressure : Option Json) (s : DBState) : DBState :=
  let dt := datetime.getD defs.insert_pressure_datetime
  _set (INSERT_PRESSURE_STR (isoformat dt) (pressure.getD (Json.num 0)).pyStr) s

/-- DatabaseInterface.insert_sample_temperature. -/
def insert_sample_temperature (defs : ClassDefaults) (datetime : Option Datetime)
    (resistance temperature : Option Json) (s : DBState) : DBState :=
  let dt := datetime.getD defs.insert_sample_datetime
  _set (INSERT_SAMPLE_STR (isoformat dt)
    (resistance.getD (Json.num 0)).pyStr
    (temperature.getD (Json.num 0)).pyStr) s

/-- DatabaseInterface.insert_temperature. -/
def insert_temperature (defs : ClassDefaults) (datetime : Option Datetime)
    (loop_id temperature working_set_point target_set_point output_power : Option Json)
    (s : DBState) : DBState :=
  let dt := datetime.getD defs.insert_temperature_datetime
  _set (INSERT_TEMPERATURE_STR (isoformat dt)
    (loop_id.getD (Json.num 0)).pyStr
    (temperature.getD (Json.num 0)).pyStr
    (working_set_point.getD (Json.num 0)).pyStr
    (target_set_point.getD (Json.num 0)).pyStr
    (output_power.getD (Json.num 0)).pyStr) s

/-- DatabaseInterface.insert_valves: name defaults to the empty string and
state to False. -/
def insert_valves (defs : ClassDefaults) (datetime : Option Datetime)
    (name : Option String) (state : Option Json) (s : DBState) : DBState :=
  let dt := datetime.getD defs.insert_valves_datetime
  _set (INSERT_VALVES_STR (isoformat dt) (name.getD ("")) (state.getD (Json.bool false)).pyStr) s

/-- DatabaseInterface.insert_process_log: both time defaults were sampled
when the class body ran; phase defaults to the string platinum. -/
def insert_process_log (defs : ClassDefaults) (start_time end_time : Option Datetime)
    (cycle_no : Option Json) (phase : Option String) (s : DBState) : DBState :=
  let st := start_time.getD defs.process_log_start_time
  let en := end_time.getD defs.process_log_end_time
  _set (INSERT_PROCESS_LOG_STR (isoformat st) (isoformat en)
    (cycle_no.getD (Json.num 0)).pyStr (phase.getD ("platinum"))) s

/-- Semantics of the predicate the GET range templates emit, datetime
between the start text and the end text: SQL BETWEEN is inclusive at
both endpoints. -/
def sql_between (lo hi x : ℚ) : Bool := decide (lo ≤ x) && decide (x ≤ hi)

/-- DatabaseInterface._get, at the level of the values the generated query
denotes.  The table rows are abstracted to the timestamp column the
template filters on; the args dict maps end to the quoted end timestamp
when one is given and to the SQL function NOW() - the server clock `now` -
when end_timestamp is None.  The query returns the rows satisfying the
generated BETWEEN predicate. -/
def _get (table : List ℚ) (now : ℚ) (start_timestamp : ℚ)
    (end_timestamp : Option ℚ) : List ℚ :=
  let e := end_timestamp.getD now
  table.filter (fun ts => sql_between start_timestamp e ts)

/-- DatabaseInterface.get_flow delegates to _get with GET_FLOW_RANGE_STR. -/
def get_flow : List ℚ → ℚ → ℚ → Option ℚ → List ℚ := _get

/-- DatabaseInterface.get_sample_temperature delegates to _get. -/
def get_sample_temperature : List ℚ → ℚ → ℚ → Option ℚ → List ℚ := _get

/-- DatabaseInterface.get_pressure delegates to _get. -/
def get_pressure : List ℚ → ℚ → ℚ → Option ℚ → List ℚ := _get

/-- DatabaseInterface.get_valves delegates to _get. -/
def get_valves : List ℚ → ℚ → ℚ → Option ℚ → List ℚ := _get

/-- DatabaseInterface.get_temperature delegates to _get. -/
def get_temperature : List ℚ → ℚ → ℚ → Option ℚ → List ℚ := _get

/-- DatabaseInterface.get_process_log delegates to _get (filtering on the
start_time column). -/
def get_process_log : List ℚ → ℚ → ℚ → Option ℚ → List ℚ := _get

end DatabaseInterface

/-- Message.insert_into_db of each message class: every variant forwards
all of its fields explicitly to the matching insert operation, parsing
the stored wire timestamp first. -/
def Message.insert_into_db (defs : ClassDefaults) : Message → DBState → DBState
  | .sampleTemperature temp res timestamp, db =>
    DatabaseInterface.insert_sample_temperature defs
      (some (dateutil_parse timestamp)) (some res) (some temp) db
  | .pressure timestamp press, db =>
    DatabaseInterface.insert_pressure defs
      (some (dateutil_parse timestamp)) (some press) db
  | .flow temp volume_flow mass_flow press setpoint timestamp, db =>
    DatabaseInterface.insert_flow defs
      (some (dateutil_parse timestamp)) (some volume_flow) (some mass_flow)
      (some press) (some setpoint) (some temp) db
  | .valve timestamp name state, db =>
    DatabaseInterface.insert_valves defs
      (some (dateutil_parse timestamp)) (some name) (some state) db
  | .temperature loop_id datetime temp wsp tsp power, db =>
    DatabaseInterface.insert_temperature defs
      (some (dateutil_parse datetime)) (some loop_id) (some temp)
      (some wsp) (some tsp) (some power) db

namespace DatabaseWorker

/-- DatabaseWorker.COMMIT_FREQUENCY, timedelta(seconds=10), in seconds. -/
def COMMIT_FREQUENCY : ℚ := 10

/-- State owned by the DatabaseWorker: _time_of_last_commit (set to
datetime.now() in the constructor) and the sink it writes to. -/
structure State where
  time_of_last_commit : ℚ
  db : DBState

/-- DatabaseWorker.commit: commit pending changes on the sink.  The clock
field is not touched here. -/
def commit (s : State) : State :=
  { s with db := DatabaseInterface.commit s.db }

/-- One iteration of the DatabaseWorker.process_data loop, entered at
wall-clock `now` with the dequeued item.  The Python guard is
  if time_since_last_commit / self.COMMIT_FREQUENCY:
a timedelta divided by a timedelta is a float, and the if takes the
branch iff that float is nonzero. -/
def process_data_step (defs : ClassDefaults) (now : ℚ) (item : Message)
    (s : State) : State :=
  let s1 : State := { s with db := item.insert_into_db defs s.db }
  let time_since_last_commit := now - s1.time_of_last_commit
  if time_since_last_commit / COMMIT_FREQUENCY ≠ 0 then commit s1 else s1

end DatabaseWorker

/-- Contents of the double-quoted regions of a statement, scanned left to
right; an unterminated final literal is kept.  The accumulator holds the
current literal reversed. -/
def qsegs : Bool → List Char → List Char → List (List Char)
  | true, cur, [] => [cur.reverse]
  | false, _, [] => []
  | true, cur, c :: cs =>
    if c = '"' then cur.reverse :: qsegs false [] cs else qsegs true (c :: cur) cs
  | false, cur, c :: cs =>
    if c = '"' then qsegs true [] cs else qsegs false cur cs

/-- String literals of an SQL statement, in order: a single INSERT of given
values (dt, name, state) into the valves table has exactly the literals
[dt, name]. -/
def quoted_segments (s : String) : List String :=
  (qsegs false [] s.toList).map (fun cs => String.mk cs)

/-- Range semantics the specification asserts, stated from its words for
comparison with the semantics the source emits: half-open, start ≤ ts
strictly below end, with end defaulting to now. -/
def spec_range_select (table : List ℚ) (now : ℚ) (start_timestamp : ℚ)
    (end_timestamp : Option ℚ) : List ℚ :=
  let e := end_timestamp.getD now
  table.filter (fun ts => decide (start_timestamp ≤ ts) && decide (ts < e))

/-- Concrete definition-time defaults used by the closed theorems below. -/
def defs0 : ClassDefaults :=
  ⟨"1970-01-01T00:00:00", "1970-01-01T00:00:00", "1970-01-01T00:00:00",
   "1970-01-01T00:00:00", "1970-01-01T00:00:00", "1970-01-01T00:00:00",
   "1970-01-01T00:00:00"⟩

/-- Concrete pressure event used by the closed worker theorems. -/
def msg0 : Message := Message.pressure (Json.str ("2024-01-01T00:00:00")) (Json.num 1)

/-- Worker as constructed at wall-clock 0 over a fresh sink. -/
def worker_s0 : DatabaseWorker.State := ⟨0, DBState.init⟩

/-- Concrete flow payload whose numeric fields are all the present-but-falsy
value 0. -/
def flow_payload0 : Json := Json.obj
  [("temperature", Json.num 0), ("volflow", Json.num 0), ("massflow", Json.num 0),
   ("pressure", Json.num 0), ("setpoint", Json.num 0),
   ("timestamp", Json.str ("2024-01-01T00:00:00"))]

/-- Concrete pressure payload, the end-to-end example of the spec. -/
def pressure_payload0 : Json := Json.obj
  [("timestamp", Json.str ("2024-01-01T00:00:00")), ("pressure", Json.num (3/2))]

/-- Concrete sample-temperature payload with zero-valued numeric fields. -/
def sample_payload0 : Json := Json.obj
  [("temperature", Json.num 0), ("resistance", Json.num 0),
   ("timestamp", Json.str ("2024-01-01T00:00:00"))]

/-- Concrete temperature payload carrying loop 2 in its body. -/
def temp_payload0 : Json := Json.obj
  [("loop", Json.num 2), ("datetime", Json.str ("2024-01-01T00:00:00")),
   ("temperature", Json.num 0), ("wsp", Json.num 0), ("tsp", Json.num 0),
   ("power", Json.num 0)]

/-- Concrete io/state payload with two valve entries, the fan-out example of
the spec. -/
def valves_payload_entries : List (String × Json) :=
  [("V1", Json.obj [("state", Json.bool true),
                    ("timestamp", Json.str ("2024-01-01T00:00:00"))]),
   ("V2", Json.obj [("state", Json.bool false),
                    ("timestamp", Json.str ("2024-01-01T00:00:01"))])]

/-- Binding a successful Except computation runs the continuation. -/
theorem except_bind_ok {α β : Type} (a : α) (f : α → Except PyError β) :
    (Except.ok a : Except PyError α) >>= f = f a := rfl

/-- DatabaseWorker.commit leaves _time_of_last_commit untouched. -/
theorem worker_commit_clock (s : DatabaseWorker.State) :
    (DatabaseWorker.commit s).time_of_last_commit = s.time_of_last_commit := rfl

/-- Neither branch of a process_data iteration assigns _time_of_last_commit. -/
theorem process_step_clock (defs : ClassDefaults) (now : ℚ) (item : Message)
    (s : DatabaseWorker.State) :
    (DatabaseWorker.process_data_step defs now item s).time_of_last_commit
      = s.time_of_last_commit := by
  simp only [DatabaseWorker.process_data_step]
  split <;> rfl

/-- Whenever the wall clock differs at all from the stored commit time, the
division guard is a nonzero float and the iteration commits. -/
theorem process_step_commits (defs : ClassDefaults) (now : ℚ) (item : Message)
    (s : DatabaseWorker.State) (h : now ≠ s.time_of_last_commit) :
    DatabaseWorker.process_data_step defs now item s
      = DatabaseWorker.commit ⟨s.time_of_last_commit, item.insert_into_db defs s.db⟩ := by
  unfold DatabaseWorker.process_data_step
  rw [if_pos]
  exact div_ne_zero (sub_ne_zero.mpr h) (by norm_num [DatabaseWorker.COMMIT_FREQUENCY])

/-- Persisting any event marks the sink as having pending writes. -/
theorem insert_into_db_new (defs : ClassDefaults) (m : Message) (db : DBState) :
    (m.insert_into_db defs db).new_to_commit = true := by
  cases m <;> rfl

/-- Persisting an event does not flush the connection by itself. -/
theorem insert_into_db_flushed (defs : ClassDefaults) (m : Message) (db : DBState) :
    (m.insert_into_db defs db).flushed = db.flushed := by
  cases m <;> rfl

/-- With pending writes, DatabaseInterface.commit flushes exactly once. -/
theorem interface_commit_flushed_of_new (db : DBState) (h : db.new_to_commit = true) :
    (DatabaseInterface.commit db).flushed = db.flushed + 1 := by
  simp [DatabaseInterface.commit, h]

/-- Any iteration entered with a wall clock different from the stored commit
time flushes the connection exactly once more. -/
theorem process_step_flushed_commit (defs : ClassDefaults) (now : ℚ) (item : Message)
    (s : DatabaseWorker.State) (h : now ≠ s.time_of_last_commit) :
    (DatabaseWorker.process_data_step defs now item s).db.flushed = s.db.flushed + 1 := by
  rw [process_step_commits defs now item s h]
  show (DatabaseInterface.commit (item.insert_into_db defs s.db)).flushed = _
  rw [interface_commit_flushed_of_new _ (insert_into_db_new defs item s.db),
    insert_into_db_flushed]

/-- C1: the claim says the worker commits iff the elapsed time since the last
commit is at least COMMIT_FREQUENCY, hence at most one commit per elapsed
interval under load.  The code instead tests the truthiness of the float
time_since_last_commit / COMMIT_FREQUENCY: a worker constructed at
wall-clock 0 processing one event at wall-clock 1 and another at
wall-clock 2 flushes the sink connection both times, although both
elapsed times are far below the 10 second interval. -/
theorem commit_gate_not_threshold :
    (DatabaseWorker.process_data_step defs0 1 msg0 worker_s0).db.flushed = 1 ∧
    (DatabaseWorker.process_data_step defs0 2 msg0
      (DatabaseWorker.process_data_step defs0 1 msg0 worker_s0)).db.flushed = 2 ∧
    (1 : ℚ) - worker_s0.time_of_last_commit < DatabaseWorker.COMMIT_FREQUENCY ∧
    (2 : ℚ) - worker_s0.time_of_last_commit < DatabaseWorker.COMMIT_FREQUENCY := by
  have hclock1 : (DatabaseWorker.process_data_step defs0 1 msg0 worker_s0).time_of_last_commit
      = 0 := by
    rw [process_step_clock]
    rfl
  have hf1 : (DatabaseWorker.process_data_step defs0 1 msg0 worker_s0).db.flushed = 1 := by
    rw [process_step_flushed_commit defs0 1 msg0 worker_s0 (by norm_num [worker_s0])]
    rfl
  refine ⟨hf1, ?_, by norm_num [worker_s0, DatabaseWorker.COMMIT_FREQUENCY],
    by norm_num [worker_s0, DatabaseWorker.COMMIT_FREQUENCY]⟩
  rw [process_step_flushed_commit defs0 2 msg0 _ (by rw [hclock1]; norm_num), hf1]

/-- C2: the claim says the CommitClock is reset to the current time whenever
the worker issues a commit.  In the code _time_of_last_commit is assigned
only in the constructor: neither DatabaseWorker.commit nor any branch of
the process_data iteration mutates it, and concretely a worker built at
wall-clock 0 that commits while processing an event at wall-clock 1
still holds 0, not 1. -/
theorem commit_clock_never_reset :
    (∀ s : DatabaseWorker.State,
      (DatabaseWorker.commit s).time_of_last_commit = s.time_of_last_commit) ∧
    (∀ (defs : ClassDefaults) (now : ℚ) (item : Message) (s : DatabaseWorker.State),
      (DatabaseWorker.process_data_step defs now item s).time_of_last_commit
        = s.time_of_last_commit) ∧
    (DatabaseWorker.process_data_step defs0 1 msg0 worker_s0).db.flushed = 1 ∧
    (DatabaseWorker.process_data_step defs0 1 msg0 worker_s0).time_of_last_commit = 0 ∧
    (0 : ℚ) ≠ 1 := by
  refine ⟨worker_commit_clock, process_step_clock, ?_, ?_, by norm_num⟩
  · rw [process_step_flushed_commit defs0 1 msg0 worker_s0 (by norm_num [worker_s0])]
    rfl
  · rw [process_step_clock]
    rfl

/-- C3: the claim says a decode failure is caught and logged inside every
receiver callback and never propagates out.  The callback bodies install
no handler: on malformed JSON the json decode error is the outcome of the
whole callback, on a missing key the key error is, and a missing key in
one io/state sub-object aborts the callback with the error escaping. -/
theorem decode_failure_escapes_callback :
    on_flow_state ⟨"ald/flow/state", Payload.malformed ("not json")⟩
      = ([], some (PyError.jsonDecodeError ("not json"))) ∧
    on_flow_state ⟨"ald/flow/state", Payload.wellFormed (Json.obj [])⟩
      = ([], some (PyError.keyError ("temperature"))) ∧
    on_valves ⟨"ald/io/state",
        Payload.wellFormed (Json.obj [("V1", Json.obj [("state", Json.bool true)])])⟩
      = ([], some (PyError.keyError ("timestamp"))) :=
  ⟨rfl, rfl, rfl⟩

/-- C4: an io/state payload mapping k valve names to sub-objects carrying
state and timestamp makes the _on_valves callback enqueue exactly k Valve
events, in entry order, each holding that entry's own name, state and
timestamp, and the callback raises nothing. -/
theorem on_valves_fanout (t : String) (fields : List (String × Json))
    (hok : ∀ e ∈ fields, ∃ st ts, getItem e.2 ("state") = Except.ok st ∧
      getItem e.2 ("timestamp") = Except.ok ts) :
    ∃ msgs, on_valves ⟨t, Payload.wellFormed (Json.obj fields)⟩ = (msgs, none) ∧
      msgs.length = fields.length ∧
      List.Forall₂ (fun (m : Message) (e : String × Json) => ∃ st ts,
        getItem e.2 ("state") = Except.ok st ∧
        getItem e.2 ("timestamp") = Except.ok ts ∧
        m = Message.valve ts e.1 st) msgs fields := by
  have main : ∀ fs : List (String × Json),
      (∀ e ∈ fs, ∃ st ts, getItem e.2 ("state") = Except.ok st ∧
        getItem e.2 ("timestamp") = Except.ok ts) →
      ∃ msgs, on_valves_loop fs = (msgs, none) ∧
        List.Forall₂ (fun (m : Message) (e : String × Json) => ∃ st ts,
          getItem e.2 ("state") = Except.ok st ∧
          getItem e.2 ("timestamp") = Except.ok ts ∧
          m = Message.valve ts e.1 st) msgs fs := by
    intro fs
    induction fs with
    | nil => exact fun _ => ⟨[], rfl, List.Forall₂.nil⟩
    | cons e rest ih =>
      intro h
      obtain ⟨st, ts, hst, hts⟩ := h e (List.mem_cons_self e rest)
      obtain ⟨msgs, hloop, hfa⟩ := ih (fun x hx => h x (List.mem_cons_of_mem e hx))
      obtain ⟨n, d⟩ := e
      have hve : valveEntry n d = Except.ok (Message.valve ts n st) := by
        simp only [valveEntry]
        rw [hst, hts]
        rfl
      refine ⟨Message.valve ts n st :: msgs, ?_, ?_⟩
      · simp [on_valves_loop, hve, hloop]
      · exact List.Forall₂.cons ⟨st, ts, hst, hts, rfl⟩ hfa
  obtain ⟨msgs, hloop, hfa⟩ := main fields hok
  exact ⟨msgs, by simp [on_valves, json_loads, hloop], hfa.length_eq, hfa⟩

/-- Witness for C4 at the two-entry example payload of the spec. -/
theorem on_valves_fanout_witness :
    ∃ msgs, on_valves ⟨"ald/io/state",
        Payload.wellFormed (Json.obj valves_payload_entries)⟩ = (msgs, none) ∧
      msgs.length = valves_payload_entries.length ∧
      List.Forall₂ (fun (m : Message) (e : String × Json) => ∃ st ts,
        getItem e.2 ("state") = Except.ok st ∧
        getItem e.2 ("timestamp") = Except.ok ts ∧
        m = Message.valve ts e.1 st) msgs valves_payload_entries :=
  on_valves_fanout ("ald/io/state") valves_payload_entries (by
    intro e he
    simp only [valves_payload_entries, List.mem_cons, List.not_mem_nil, or_false] at he
    rcases he with rfl | rfl
    · exact ⟨Json.bool true, Json.str ("2024-01-01T00:00:00"), rfl, rfl⟩
    · exact ⟨Json.bool false, Json.str ("2024-01-01T00:00:01"), rfl, rfl⟩)

/-- Same induction as the valve fan-out, packaged as a reusable lemma: when
every entry of the decoded object carries state and timestamp, the loop
raises nothing and each enqueued message holds that entry's own values. -/
theorem valves_loop_fields_verbatim (fs : List (String × Json))
    (hok : ∀ e ∈ fs, ∃ st ts, getItem e.2 ("state") = Except.ok st ∧
      getItem e.2 ("timestamp") = Except.ok ts) :
    ∃ msgs, on_valves_loop fs = (msgs, none) ∧
      List.Forall₂ (fun (m : Message) (e : String × Json) => ∃ st ts,
        getItem e.2 ("state") = Except.ok st ∧
        getItem e.2 ("timestamp") = Except.ok ts ∧
        m = Message.valve ts e.1 st) msgs fs := by
  induction fs with
  | nil => exact ⟨[], rfl, List.Forall₂.nil⟩
  | cons e rest ih =>
    obtain ⟨st, ts, hst, hts⟩ := hok e (List.mem_cons_self e rest)
    obtain ⟨msgs, hloop, hfa⟩ := ih (fun x hx => hok x (List.mem_cons_of_mem e hx))
    obtain ⟨n, d⟩ := e
    have hve : valveEntry n d = Except.ok (Message.valve ts n st) := by
      simp only [valveEntry]
      rw [hst, hts]
      rfl
    refine ⟨Message.valve ts n st :: msgs, ?_, ?_⟩
    · simp [on_valves_loop, hve, hloop]
    · exact List.Forall₂.cons ⟨st, ts, hst, hts, rfl⟩ hfa

/-- C5: a well-formed payload on any of the known topics decodes to events
whose fields are exactly the looked-up payload values: the flow, pressure
and sample callbacks, the shared callback of the eight temperature topics,
and the io/state callback (per entry) all carry the values verbatim; in
particular a present 0.0 or False survives, never replaced by a default
(the zero defaults of the insert signatures bind only to omitted
arguments, and the message classes always pass every argument). -/
theorem decoded_fields_verbatim :
    (∀ (t : String) (j temp volflow massflow press setpoint ts : Json),
      getItem j ("temperature") = Except.ok temp →
      getItem j ("volflow") = Except.ok volflow →
      getItem j ("massflow") = Except.ok massflow →
      getItem j ("pressure") = Except.ok press →
      getItem j ("setpoint") = Except.ok setpoint →
      getItem j ("timestamp") = Except.ok ts →
      on_flow_state ⟨t, Payload.wellFormed j⟩
        = ([Message.flow temp volflow massflow press setpoint ts], none)) ∧
    (∀ (t : String) (j ts press : Json),
      getItem j ("timestamp") = Except.ok ts →
      getItem j ("pressure") = Except.ok press →
      on_pressure_main ⟨t, Payload.wellFormed j⟩
        = ([Message.pressure ts press], none)) ∧
    (∀ (t : String) (j temp res ts : Json),
      getItem j ("temperature") = Except.ok temp →
      getItem j ("resistance") = Except.ok res →
      getItem j ("timestamp") = Except.ok ts →
      on_sample_temperature ⟨t, Payload.wellFormed j⟩
        = ([Message.sampleTemperature temp res ts], none)) ∧
    (∀ (t : String) (j lo dt temp wsp tsp power : Json),
      getItem j ("loop") = Except.ok lo →
      getItem j ("datetime") = Except.ok dt →
      getItem j ("temperature") = Except.ok temp →
      getItem j ("wsp") = Except.ok wsp →
      getItem j ("tsp") = Except.ok tsp →
      getItem j ("power") = Except.ok power →
      on_temperature ⟨t, Payload.wellFormed j⟩
        = ([Message.temperature lo dt temp wsp tsp power], none)) ∧
    (∀ (t : String) (fields : List (String × Json)),
      (∀ e ∈ fields, ∃ st ts, getItem e.2 ("state") = Except.ok st ∧
        getItem e.2 ("timestamp") = Except.ok ts) →
      ∃ msgs, on_valves ⟨t, Payload.wellFormed (Json.obj fields)⟩ = (msgs, none) ∧
        List.Forall₂ (fun (m : Message) (e : String × Json) => ∃ st ts,
          getItem e.2 ("state") = Except.ok st ∧
          getItem e.2 ("timestamp") = Except.ok ts ∧
          m = Message.valve ts e.1 st) msgs fields) := by
  refine ⟨?_, ?_, ?_, ?_, ?_⟩
  · intro t j temp volflow massflow press setpoint ts h1 h2 h3 h4 h5 h6
    simp [on_flow_state, flow_decode, json_loads, put_result, except_bind_ok,
      h1, h2, h3, h4, h5, h6]
  · intro t j ts press h1 h2
    simp [on_pressure_main, pressure_decode, json_loads, put_result, except_bind_ok,
      h1, h2]
  · intro t j temp res ts h1 h2 h3
    simp [on_sample_temperature, sample_decode, json_loads, put_result, except_bind_ok,
      h1, h2, h3]
  · intro t j lo dt temp wsp tsp power h1 h2 h3 h4 h5 h6
    simp [on_temperature, temperature_decode, json_loads, put_result, except_bind_ok,
      h1, h2, h3, h4, h5, h6]
  · intro t fields hok
    obtain ⟨msgs, hloop, hfa⟩ := valves_loop_fields_verbatim fields hok
    exact ⟨msgs, by simp [on_valves, json_loads, hloop], hfa⟩

/-- Witness for C5 at concrete payloads on each topic family, whose numeric
fields are 0 (and 3/2 for the pressure value) and whose second valve state
is False: the falsy values survive decoding verbatim. -/
theorem decoded_fields_verbatim_witness :
    on_flow_state ⟨"ald/flow/state", Payload.wellFormed flow_payload0⟩
      = ([Message.flow (Json.num 0) (Json.num 0) (Json.num 0) (Json.num 0) (Json.num 0)
          (Json.str ("2024-01-01T00:00:00"))], none) ∧
    on_pressure_main ⟨"ald/pressure/main", Payload.wellFormed pressure_payload0⟩
      = ([Message.pressure (Json.str ("2024-01-01T00:00:00")) (Json.num (3/2))], none) ∧
    on_sample_temperature ⟨"ald/sample/temperature", Payload.wellFormed sample_payload0⟩
      = ([Message.sampleTemperature (Json.num 0) (Json.num 0)
          (Json.str ("2024-01-01T00:00:00"))], none) ∧
    on_temperature ⟨"ald/temperature/leftprecursor", Payload.wellFormed temp_payload0⟩
      = ([Message.temperature (Json.num 2) (Json.str ("2024-01-01T00:00:00")) (Json.num 0)
          (Json.num 0) (Json.num 0) (Json.num 0)], none) ∧
    ∃ msgs, on_valves ⟨"ald/io/state",
        Payload.wellFormed (Json.obj valves_payload_entries)⟩ = (msgs, none) ∧
      List.Forall₂ (fun (m : Message) (e : String × Json) => ∃ st ts,
        getItem e.2 ("state") = Except.ok st ∧
        getItem e.2 ("timestamp") = Except.ok ts ∧
        m = Message.valve ts e.1 st) msgs valves_payload_entries :=
  ⟨decoded_fields_verbatim.1 ("ald/flow/state") flow_payload0 _ _ _ _ _ _
      rfl rfl rfl rfl rfl rfl,
   decoded_fields_verbatim.2.1 ("ald/pressure/main") pressure_payload0 _ _ rfl rfl,
   decoded_fields_verbatim.2.2.1 ("ald/sample/temperature") sample_payload0 _ _ _
      rfl rfl rfl,
   decoded_fields_verbatim.2.2.2.1 ("ald/temperature/leftprecursor")
      temp_payload0 _ _ _ _ _ _ rfl rfl rfl rfl rfl rfl,
   decoded_fields_verbatim.2.2.2.2 ("ald/io/state") valves_payload_entries (by
      intro e he
      simp only [valves_payload_entries, List.mem_cons, List.not_mem_nil, or_false] at he
      rcases he with rfl | rfl
      · exact ⟨Json.bool true, Json.str ("2024-01-01T00:00:00"), rfl, rfl⟩
      · exact ⟨Json.bool false, Json.str ("2024-01-01T00:00:01"), rfl, rfl⟩)⟩

/-- C6: DatabaseInterface.commit is a no-op when nothing is pending (the
state, including the flush count of the underlying connection, is
unchanged), clears the pending flag after any commit, and is therefore
idempotent: an immediately repeated commit does nothing. -/
theorem commit_pending_semantics (s : DBState) :
    (s.new_to_commit = false → DatabaseInterface.commit s = s) ∧
    (DatabaseInterface.commit s).new_to_commit = false ∧
    DatabaseInterface.commit (DatabaseInterface.commit s) = DatabaseInterface.commit s ∧
    (s.new_to_commit = false → (DatabaseInterface.commit s).flushed = s.flushed) := by
  unfold DatabaseInterface.commit
  by_cases h : s.new_to_commit <;> simp [h]

/-- Witness for C6 at the freshly constructed sink, where nothing is
pending. -/
theorem commit_pending_semantics_witness :
    DatabaseInterface.commit DBState.init = DBState.init ∧
    (DatabaseInterface.commit DBState.init).new_to_commit = false :=
  ⟨(commit_pending_semantics DBState.init).1 rfl,
   (commit_pending_semantics DBState.init).2.1⟩

/-- C7, counterexample: the generated queries use SQL BETWEEN, which is
inclusive at the upper endpoint, so with end_timestamp = 10 a record at
timestamp 10 is selected although 10 is outside the half-open range the
claim asserts, and the half-open selection would return nothing. -/
theorem range_end_inclusive_cex :
    DatabaseInterface.get_flow [10] 99 0 (some 10) = [10] ∧
    spec_range_select [10] 99 0 (some 10) = [] ∧
    ¬ ((10 : ℚ) < 10) :=
  ⟨by decide, by decide, by norm_num⟩

/-- C7, amended: every range-query operation delegates to _get, and a row is
selected iff its timestamp lies in the closed range from start_timestamp
to end_timestamp inclusive, the end bound defaulting to the current time
NOW() when end_timestamp is unspecified. -/
theorem range_select_closed_interval :
    (DatabaseInterface.get_flow = DatabaseInterface._get ∧
     DatabaseInterface.get_sample_temperature = DatabaseInterface._get ∧
     DatabaseInterface.get_pressure = DatabaseInterface._get ∧
     DatabaseInterface.get_valves = DatabaseInterface._get ∧
     DatabaseInterface.get_temperature = DatabaseInterface._get ∧
     DatabaseInterface.get_process_log = DatabaseInterface._get) ∧
    ∀ (table : List ℚ) (now start_timestamp : ℚ) (end_timestamp : Option ℚ) (ts : ℚ),
      ts ∈ DatabaseInterface._get table now start_timestamp end_timestamp ↔
        ts ∈ table ∧ start_timestamp ≤ ts ∧ ts ≤ end_timestamp.getD now := by
  refine ⟨⟨rfl, rfl, rfl, rfl, rfl, rfl⟩, ?_⟩
  intro table now start_timestamp end_timestamp ts
  simp [DatabaseInterface._get, DatabaseInterface.sql_between, List.mem_filter, and_assoc]

/-- C8: _on_connect registers all eight temperature topics to the one
_on_temperature callback, that callback ignores the topic entirely, and
on a well-formed payload the loop identifier of the decoded event is the
loop field of the payload body. -/
theorem temperature_topics_shared_handler :
    TEMPERATURE_TOPICS.length = 8 ∧
    (∀ t ∈ TEMPERATURE_TOPICS,
      on_connect_registrations.lookup ("ald/temperature/" ++ t)
        = some Handler.onTemperature) ∧
    (∀ (t1 t2 : String) (p : Payload), on_temperature ⟨t1, p⟩ = on_temperature ⟨t2, p⟩) ∧
    (∀ (t : String) (j lo dt temp wsp tsp power : Json),
      getItem j ("loop") = Except.ok lo →
      getItem j ("datetime") = Except.ok dt →
      getItem j ("temperature") = Except.ok temp →
      getItem j ("wsp") = Except.ok wsp →
      getItem j ("tsp") = Except.ok tsp →
      getItem j ("power") = Except.ok power →
      on_temperature ⟨t, Payload.wellFormed j⟩
        = ([Message.temperature lo dt temp wsp tsp power], none)) := by
  refine ⟨rfl, by decide, fun t1 t2 p => rfl, ?_⟩
  intro t j lo dt temp wsp tsp power h1 h2 h3 h4 h5 h6
  simp [on_temperature, temperature_decode, json_loads, put_result, except_bind_ok,
    h1, h2, h3, h4, h5, h6]

/-- Witness for C8: one of the eight registrations looked up concretely, two
different temperature topics yielding the same decode of one payload, and
the decoded loop identifier equal to the loop field of that payload. -/
theorem temperature_topics_shared_handler_witness :
    on_connect_registrations.lookup ("ald/temperature/" ++ "leftlinevacuum")
      = some Handler.onTemperature ∧
    on_temperature ⟨"ald/temperature/leftlinevacuum", Payload.wellFormed temp_payload0⟩
      = on_temperature ⟨"ald/temperature/rightprecursor", Payload.wellFormed temp_payload0⟩ ∧
    on_temperature ⟨"ald/temperature/leftlinevacuum", Payload.wellFormed temp_payload0⟩
      = ([Message.temperature (Json.num 2) (Json.str ("2024-01-01T00:00:00")) (Json.num 0)
          (Json.num 0) (Json.num 0) (Json.num 0)], none) :=
  ⟨temperature_topics_shared_handler.2.1 ("leftlinevacuum") (by decide),
   temperature_topics_shared_handler.2.2.1 ("ald/temperature/leftlinevacuum")
     ("ald/temperature/rightprecursor") (Payload.wellFormed temp_payload0),
   temperature_topics_shared_handler.2.2.2 ("ald/temperature/leftlinevacuum")
     temp_payload0 _ _ _ _ _ _ rfl rfl rfl rfl rfl rfl⟩

/-- C9: each insert operation resolves an omitted datetime argument to the
default sampled once when the class body ran, so a call omitting the
timestamp behaves exactly like a call passing that fixed definition-time
instant, whatever the state and the other arguments are. -/
theorem insert_datetime_default_fixed :
    (∀ (defs : ClassDefaults) (vf mf pr sp tp : Option Json) (db : DBState),
      DatabaseInterface.insert_flow defs none vf mf pr sp tp db
        = DatabaseInterface.insert_flow defs (some defs.insert_flow_datetime)
            vf mf pr sp tp db) ∧
    (∀ (defs : ClassDefaults) (pr : Option Json) (db : DBState),
      DatabaseInterface.insert_pressure defs none pr db
        = DatabaseInterface.insert_pressure defs (some defs.insert_pressure_datetime)
            pr db) ∧
    (∀ (defs : ClassDefaults) (res temp : Option Json) (db : DBState),
      DatabaseInterface.insert_sample_temperature defs none res temp db
        = DatabaseInterface.insert_sample_temperature defs
            (some defs.insert_sample_datetime) res temp db) ∧
    (∀ (defs : ClassDefaults) (lid temp wsp tsp op : Option Json) (db : DBState),
      DatabaseInterface.insert_temperature defs none lid temp wsp tsp op db
        = DatabaseInterface.insert_temperature defs
            (some defs.insert_temperature_datetime) lid temp wsp tsp op db) ∧
    (∀ (defs : ClassDefaults) (name : Option String) (st : Option Json) (db : DBState),
      DatabaseInterface.insert_valves defs none name st db
        = DatabaseInterface.insert_valves defs (some defs.insert_valves_datetime)
            name st db) ∧
    (∀ (defs : ClassDefaults) (cy : Option Json) (ph : Option String) (db : DBState),
      DatabaseInterface.insert_process_log defs none none cy ph db
        = DatabaseInterface.insert_process_log defs (some defs.process_log_start_time)
            (some defs.process_log_end_time) cy ph db) :=
  ⟨fun _ _ _ _ _ _ _ => rfl, fun _ _ _ => rfl, fun _ _ _ _ => rfl,
   fun _ _ _ _ _ _ _ => rfl, fun _ _ _ _ => rfl, fun _ _ _ _ => rfl⟩

/-- C10: insert_valves interpolates the raw field values into
INSERT_VALVES_STR, so while a quote-free name yields a statement whose
string literals are exactly the two given values, a name containing a
double quote yields a statement whose literal structure no longer matches
a single INSERT of the given values. -/
theorem insert_valves_quote_breaks_structure :
    quoted_segments (DatabaseInterface.INSERT_VALVES_STR
        (isoformat ("2024-01-01T00:00:00")) ("V1") ("True"))
      = ["2024-01-01T00:00:00", "V1"] ∧
    quoted_segments (DatabaseInterface.INSERT_VALVES_STR
        (isoformat ("2024-01-01T00:00:00")) ("a\"b") ("True"))
      ≠ ["2024-01-01T00:00:00", "a\"b"] ∧
    (DatabaseInterface.insert_valves defs0 (some ("2024-01-01T00:00:00"))
        (some ("a\"b")) (some (Json.bool true)) DBState.init).executed
      = [DatabaseInterface.INSERT_VALVES_STR
          (isoformat ("2024-01-01T00:00:00")) ("a\"b") ("True")] :=
  ⟨by decide, by decide, rfl⟩
